import Mathlib

set_option autoImplicit false
set_option linter.unusedVariables false

/-!
Verification development for the voice-agent streaming pipeline
(conversation state coordinator, session versioning, stage queues,
and the playback jitter buffer).

Each definition is a shallow embedding of the corresponding Python
source construct; the file reference is given in its doc comment.
-/

namespace VoiceAgent

/-- conversation_manager.py lines 5-9: the `PipelineState` enumeration. -/
inductive PipelineState where
  | LISTENING
  | PROCESSING
  | RESPONDING
  | INTERRUPTING
deriving DecidableEq, Repr

open PipelineState

/-- The keys of `ConversationManager.cleanup_events`
(conversation_manager.py lines 19-23). -/
inductive Component where
  | llm
  | tts
  | audio_player
deriving DecidableEq, Repr

/-- conversation_manager.py lines 14-26: the mutable fields of
`ConversationManager` (the three `cleanup_events` dict entries are
modelled as three Boolean fields; an `asyncio.Event` is its set/unset
Boolean). -/
structure ConversationManager where
  state : PipelineState
  interrupt_event : Bool
  cleanup_llm : Bool
  cleanup_tts : Bool
  cleanup_audio_player : Bool
  current_session_id : Nat
deriving DecidableEq, Repr

/-- conversation_manager.py `__init__`: state LISTENING, all events
cleared, session id 0. -/
def ConversationManager.init : ConversationManager :=
  { state := LISTENING
    interrupt_event := false
    cleanup_llm := false
    cleanup_tts := false
    cleanup_audio_player := false
    current_session_id := 0 }

/-- conversation_manager.py lines 28-30: `set_state` assigns the new
state unconditionally (no validation against any transition table). -/
def ConversationManager.set_state (m : ConversationManager)
    (new_state : PipelineState) : ConversationManager :=
  { m with state := new_state }

/-- conversation_manager.py lines 32-66: `trigger_interrupt`.
If the state is not RESPONDING it returns at once with no mutation.
Otherwise it sets INTERRUPTING, increments the session id, sets the
interrupt event, waits (with a 2.0 s timeout) for the cleanup events,
then clears the interrupt event and every cleanup event and sets
LISTENING.  Whether the wait ends by acknowledgement or by timeout,
the resulting field values are the same, so the final state is a
deterministic function of the input. -/
def ConversationManager.trigger_interrupt (m : ConversationManager) :
    ConversationManager :=
  if m.state ≠ RESPONDING then m
  else
    { state := LISTENING
      interrupt_event := false
      cleanup_llm := false
      cleanup_tts := false
      cleanup_audio_player := false
      current_session_id := m.current_session_id + 1 }

/-- The sequence of states entered while `trigger_interrupt` runs
(conversation_manager.py lines 38 and 66): INTERRUPTING, then
LISTENING; empty when the RESPONDING guard fails. -/
def ConversationManager.trigger_interrupt_states (m : ConversationManager) :
    List PipelineState :=
  if m.state ≠ RESPONDING then [] else [INTERRUPTING, LISTENING]

/-- conversation_manager.py lines 68-72: `signal_cleanup_complete`
sets the cleanup event of the named component. -/
def ConversationManager.signal_cleanup_complete (m : ConversationManager)
    (component : Component) : ConversationManager :=
  match component with
  | .llm => { m with cleanup_llm := true }
  | .tts => { m with cleanup_tts := true }
  | .audio_player => { m with cleanup_audio_player := true }

/-- The state-mutating operations of the `ConversationManager` API. -/
inductive MgrOp where
  | set_state_op (s : PipelineState)
  | trigger_interrupt_op
  | signal_cleanup_op (c : Component)
deriving DecidableEq, Repr

/-- One API call on the manager. -/
def mgrStep (m : ConversationManager) : MgrOp → ConversationManager
  | .set_state_op s => m.set_state s
  | .trigger_interrupt_op => m.trigger_interrupt
  | .signal_cleanup_op c => m.signal_cleanup_complete c

/-- asr.py line 48: the ASR keeps its own captured session id,
initialised to 0. -/
structure CartesiaASR where
  current_session_id : Nat
deriving DecidableEq, Repr

/-- asr.py lines 101-136: the handling by the receiver of one non-empty
final transcript.  In source order: if the manager state is
RESPONDING, await `trigger_interrupt` (line 110); then overwrite the
captured session id of the ASR with the current manager one (line 113);
then, if the captured id equals the current manager id, set state
PROCESSING (lines 134-135); finally `yield text` unconditionally
(line 136).  Returns the new ASR state, the new manager state, the
list of manager states entered, and the list of texts yielded into
the text channel. -/
def handleFinalTranscript (a : CartesiaASR) (m : ConversationManager)
    (text : String) :
    CartesiaASR × ConversationManager × List PipelineState × List String :=
  let m1 := if m.state = RESPONDING then m.trigger_interrupt else m
  let sts1 := if m.state = RESPONDING then m.trigger_interrupt_states else []
  let a1 : CartesiaASR := { current_session_id := m1.current_session_id }
  let m2 := if a1.current_session_id = m1.current_session_id
            then m1.set_state PROCESSING else m1
  let sts2 := if a1.current_session_id = m1.current_session_id
              then [PROCESSING] else []
  (a1, m2, sts1 ++ sts2, [text])

/-- Run the ASR final-transcript handler over a list of transcripts,
collecting every manager state entered. -/
def asrRun (a : CartesiaASR) (m : ConversationManager) :
    List String → List PipelineState
  | [] => []
  | t :: ts =>
      let r := handleFinalTranscript a m t
      r.2.2.1 ++ asrRun r.1 r.2.1 ts

/-- The full state trace: the initial state followed by every state
entered while the transcripts are handled. -/
def stateTrace (a : CartesiaASR) (m : ConversationManager)
    (ts : List String) : List PipelineState :=
  m.state :: asrRun a m ts

/-- The transition table of spec section 4.2. -/
def specTransition : PipelineState → PipelineState → Bool
  | LISTENING, PROCESSING => true
  | PROCESSING, RESPONDING => true
  | RESPONDING, INTERRUPTING => true
  | INTERRUPTING, LISTENING => true
  | _, _ => false

/-- The table of spec section 4.2 extended with the PROCESSING
self-transition that the code actually performs when a finalized
utterance arrives while already in PROCESSING. -/
def extTransition (x y : PipelineState) : Bool :=
  specTransition x y || (x = PROCESSING && y = PROCESSING)

/-- An `asyncio.Queue`: a FIFO list of items together with the
`maxsize` fixed at construction.  In asyncio, `maxsize = 0` means the
queue is unbounded. -/
structure AQueue (α : Type) where
  maxsize : Nat
  items : List α
deriving DecidableEq, Repr

/-- The asyncio method `Queue.full()`: false when `maxsize <= 0`, otherwise
`qsize() >= maxsize`. -/
def AQueue.full {α : Type} (q : AQueue α) : Bool :=
  0 < q.maxsize && q.maxsize ≤ q.items.length

/-- The asyncio method `Queue.put(item)`: suspends the caller (modelled as
`none`) while the queue is full, otherwise appends the item at the
tail. -/
def AQueue.put {α : Type} (q : AQueue α) (x : α) : Option (AQueue α) :=
  if q.full then none else some { q with items := q.items ++ [x] }

/-- The asyncio method `Queue.get()`: suspends the caller (modelled as `none`)
while the queue is empty, otherwise removes and returns the head
item. -/
def AQueue.get {α : Type} (q : AQueue α) : Option (α × AQueue α) :=
  match q.items with
  | [] => none
  | x :: rest => some (x, { q with items := rest })

/-- buffers.py lines 5-11: `BufferManager` constructs the four stage
queues with maxsizes 10, 10, 20, 20 (audio chunks are opaque; texts
are strings). -/
structure BufferManager where
  audio_buffer : AQueue Nat
  text_buffer : AQueue String
  llm_response_buffer : AQueue String
  playback_buffer : AQueue Nat
deriving DecidableEq, Repr

/-- buffers.py `__init__`. -/
def BufferManager.init : BufferManager :=
  { audio_buffer := { maxsize := 10, items := [] }
    text_buffer := { maxsize := 10, items := [] }
    llm_response_buffer := { maxsize := 20, items := [] }
    playback_buffer := { maxsize := 20, items := [] } }

/-- main.py lines 47-50: the orchestrator `test_asr` creates its four
inter-stage queues as `asyncio.Queue()` with no maxsize argument,
i.e. `maxsize = 0` (unbounded), for audio_queue, text_queue,
response_queue and tts_chunk_queue in that order. -/
def mainStageQueueMaxsizes : List Nat := [0, 0, 0, 0]

/-- An item flowing through a stage queue: a payload chunk, or the
"END" terminal marker used by the repository drivers. -/
inductive PipeItem where
  | data (payload : Nat)
  | endMarker
deriving DecidableEq, Repr

/-- Number of terminal markers in a list of enqueued items. -/
def countEndMarkers (l : List PipeItem) : Nat :=
  l.count PipeItem.endMarker

/-- main.py lines 52-59: `audio_producer` iterates the finite
`audio_source.stream_audio()` and puts each chunk; after the source
is exhausted the coroutine returns without enqueueing anything else
(no terminal marker, despite the docstring "Sends END signal when
audio capture is complete"). -/
def audioProducerPuts (sourceChunks : List Nat) : List PipeItem :=
  sourceChunks.map PipeItem.data

/-- test_asr_llm_tts.py lines 32-36: `feed_audio` puts every source
chunk and then puts the single "END" terminal marker. -/
def feedAudioPuts (sourceChunks : List Nat) : List PipeItem :=
  sourceChunks.map PipeItem.data ++ [PipeItem.endMarker]

/-- audio_player.py lines 221-251: the receive loop of `play_audio`
breaks only on `asyncio.CancelledError`; no received item, the
terminal marker included, ends the loop. -/
def playAudioBreaksOn (item : PipeItem) : Bool := false

/-- llm.py lines 76-83: the first step of the outer loop of
`generate_stream`: `get()` the first text (suspending, `none`, when the queue is
empty); if it is "END", break (the marker has been dequeued and is
not re-enqueued), otherwise keep it as the start of the utterance
buffer.  Returns `none` for suspension, otherwise the text consumed
(`none` inside means the loop broke) and the remaining queue. -/
def llmFirstStep (q : AQueue String) : Option (Option String × AQueue String) :=
  match q.get with
  | none => none
  | some (t, q') => if t = "END" then some (none, q') else some (some t, q')

/-- audio_player.py lines 58-74: the mutable fields of
`SoundDeviceAudioPlayer` that the jitter-buffer logic touches.  A
buffered chunk is its list of samples (sample values are integers
here; the claims under study concern counts and zero/nonzero content,
not float arithmetic).  `audio_buffer` is the deque of chunks. -/
structure SoundDeviceAudioPlayer where
  min_buffer_samples : Nat
  audio_buffer : List (List Int)
  total_samples_buffered : Nat
  underrun_count : Nat
  started_playback : Bool
deriving DecidableEq, Repr

/-- audio_player.py `__init__` with the default
`min_buffer_samples = 4800`: empty buffer, zero counters, playback
not started. -/
def SoundDeviceAudioPlayer.init : SoundDeviceAudioPlayer :=
  { min_buffer_samples := 4800
    audio_buffer := []
    total_samples_buffered := 0
    underrun_count := 0
    started_playback := false }

/-- audio_player.py lines 112-136: the while loop inside
`_audio_callback` that fills the output from the chunk deque.
Given the deque and the number of samples still needed, it peeks the
head chunk; if the chunk fits in the remaining request it is consumed
whole, otherwise a prefix is consumed and the remainder is retained
as the new head.  Returns the remaining deque, the number of samples
consumed, and the samples written to the output. -/
def serveLoop : List (List Int) → Nat → List (List Int) × Nat × List Int
  | [], _ => ([], 0, [])
  | c :: rest, needed =>
      if needed = 0 then (c :: rest, 0, [])
      else if c.length ≤ needed then
        let r := serveLoop rest (needed - c.length)
        (r.1, c.length + r.2.1, c ++ r.2.2)
      else
        (c.drop needed :: rest, needed, c.take needed)

/-- audio_player.py lines 80-152: `_audio_callback`, asked for
`frames` output samples.  If playback has not started and the total
buffered samples are below `min_buffer_samples`, it outputs silence
and returns without mutating anything.  Otherwise it marks playback
started; if the deque is non-empty it serves from it (decrementing
`total_samples_buffered` by the samples consumed), fills any
shortfall with silence and then increments `underrun_count`; if the
deque is empty it outputs silence and increments `underrun_count`
(the started flag was just set).  Returns the new player state and
the `frames` output samples (silence is the sample 0). -/
def audio_callback (p : SoundDeviceAudioPlayer) (frames : Nat) :
    SoundDeviceAudioPlayer × List Int :=
  if ¬ p.started_playback ∧ p.total_samples_buffered < p.min_buffer_samples then
    (p, List.replicate frames 0)
  else
    let p1 := { p with started_playback := true }
    if p1.audio_buffer ≠ [] then
      let r := serveLoop p1.audio_buffer frames
      let samples_needed := frames - r.2.1
      ({ p1 with
          audio_buffer := r.1
          total_samples_buffered := p1.total_samples_buffered - r.2.1
          underrun_count :=
            p1.underrun_count + (if 0 < samples_needed then 1 else 0) },
        r.2.2 ++ List.replicate samples_needed 0)
    else
      ({ p1 with
          underrun_count :=
            p1.underrun_count + (if p1.started_playback then 1 else 0) },
        List.replicate frames 0)

/-- audio_player.py lines 190-202: `_add_audio_chunk` appends the
chunk to the deque tail and adds its length to
`total_samples_buffered`. -/
def add_audio_chunk (p : SoundDeviceAudioPlayer) (audio_data : List Int) :
    SoundDeviceAudioPlayer :=
  { p with
      audio_buffer := p.audio_buffer ++ [audio_data]
      total_samples_buffered := p.total_samples_buffered + audio_data.length }

/-- audio_player.py lines 262-270: `flush_and_stop` clears the chunk
deque (`self.audio_buffer.clear()`) and stops the output stream; it
touches neither `total_samples_buffered` nor `started_playback` nor
`underrun_count`. -/
def flush_and_stop (p : SoundDeviceAudioPlayer) : SoundDeviceAudioPlayer :=
  { p with audio_buffer := [] }

/-- Spec section 3 invariant: the running total equals the sum of the
sample counts of the buffered chunks. -/
def bufferInvariant (p : SoundDeviceAudioPlayer) : Prop :=
  p.total_samples_buffered = (p.audio_buffer.map List.length).sum

/-- A concrete player state for exercising the prebuffer gate: 2000
samples pushed against the default 4800-sample minimum, playback not
yet started (the concrete example of spec section 8). -/
def prebufferExample : SoundDeviceAudioPlayer :=
  { min_buffer_samples := 4800
    audio_buffer := [List.replicate 2000 1]
    total_samples_buffered := 2000
    underrun_count := 0
    started_playback := false }

/-- A concrete post-start player state with 3 buffered samples split
over two chunks. -/
def underrunExample : SoundDeviceAudioPlayer :=
  { min_buffer_samples := 4800
    audio_buffer := [[1, 2], [3]]
    total_samples_buffered := 3
    underrun_count := 0
    started_playback := true }

/-- A concrete player state mid-playback, input of the flush
counterexample. -/
def flushExample : SoundDeviceAudioPlayer :=
  { min_buffer_samples := 4800
    audio_buffer := [[5, 7]]
    total_samples_buffered := 2
    underrun_count := 0
    started_playback := true }

/-- The serving loop writes the first `needed` samples of the
flattened deque to the output, consumes `min needed total` samples,
and leaves exactly the remaining samples buffered. -/
theorem serveLoop_spec (buf : List (List Int)) (needed : Nat) :
    (serveLoop buf needed).2.2 = buf.flatten.take needed ∧
    (serveLoop buf needed).2.1 = min needed buf.flatten.length ∧
    (serveLoop buf needed).1.flatten = buf.flatten.drop needed := by
  induction buf generalizing needed with
  | nil => simp [serveLoop]
  | cons c rest ih =>
    by_cases h0 : needed = 0
    · subst h0; simp [serveLoop]
    · by_cases hle : c.length ≤ needed
      · obtain ⟨ih1, ih2, ih3⟩ := ih (needed - c.length)
        refine ⟨?_, ?_, ?_⟩
        · simp only [serveLoop, if_neg h0, if_pos hle, List.flatten_cons,
            List.take_append_eq_append_take, List.take_of_length_le hle]
          rw [ih1]
        · simp only [serveLoop, if_neg h0, if_pos hle, List.flatten_cons,
            List.length_append]
          rw [ih2]
          omega
        · simp only [serveLoop, if_neg h0, if_pos hle, List.flatten_cons,
            List.drop_append_eq_append_drop, List.drop_eq_nil_of_le hle]
          rw [ih3]
          simp
      · have hlt : needed < c.length := Nat.lt_of_not_le hle
        refine ⟨?_, ?_, ?_⟩
        · simp only [serveLoop, if_neg h0, if_neg hle, List.flatten_cons,
            List.take_append_eq_append_take, Nat.sub_eq_zero_of_le hlt.le,
            List.take_zero, List.append_nil]
        · simp only [serveLoop, if_neg h0, if_neg hle, List.flatten_cons,
            List.length_append]
          omega
        · simp only [serveLoop, if_neg h0, if_neg hle, List.flatten_cons,
            List.drop_append_eq_append_drop, Nat.sub_eq_zero_of_le hlt.le,
            List.drop_zero]

/-- When the manager is not RESPONDING, the final-transcript handler
skips the interrupt, re-captures the current session id, and (the
re-captured id always matching) sets PROCESSING and yields the
text. -/
theorem handleFinal_not_responding (a : CartesiaASR) (m : ConversationManager)
    (t : String) (h : m.state ≠ RESPONDING) :
    handleFinalTranscript a m t =
      ({ current_session_id := m.current_session_id },
       m.set_state PROCESSING, [PROCESSING], [t]) := by
  simp [handleFinalTranscript, h]

/-- When the manager is RESPONDING, the final-transcript handler runs
the interrupt (session id + 1, ending LISTENING), then re-captures
the new session id — so the staleness comparison succeeds — and sets
PROCESSING and yields the text. -/
theorem handleFinal_responding (a : CartesiaASR) (m : ConversationManager)
    (t : String) (h : m.state = RESPONDING) :
    handleFinalTranscript a m t =
      ({ current_session_id := m.current_session_id + 1 },
       { state := PROCESSING
         interrupt_event := false
         cleanup_llm := false
         cleanup_tts := false
         cleanup_audio_player := false
         current_session_id := m.current_session_id + 1 },
       [INTERRUPTING, LISTENING, PROCESSING], [t]) := by
  simp [handleFinalTranscript, h, ConversationManager.trigger_interrupt,
    ConversationManager.trigger_interrupt_states, ConversationManager.set_state]


/-- C3: counterexample.  Two successive finalized utterances from the
initial state drive the trace LISTENING, PROCESSING, PROCESSING:
asr.py line 135 calls `set_state(PROCESSING)` without inspecting the
current state, so the second utterance performs a PROCESSING to
PROCESSING self-transition, which the section 4.2 table does not
contain. -/
theorem c3_counterexample :
    ¬ List.Chain' (fun x y => specTransition x y = true)
      (stateTrace ({ current_session_id := 0 } : CartesiaASR)
        ConversationManager.init ["first utterance", "second utterance"]) := by
  have h : stateTrace ({ current_session_id := 0 } : CartesiaASR)
      ConversationManager.init ["first utterance", "second utterance"]
      = [LISTENING, PROCESSING, PROCESSING] := by decide
  rw [h]
  simp [List.chain'_cons, specTransition]

/-- C3 (amended): starting from any manager state other than
INTERRUPTING, every transition in the trace produced by handling
finalized transcripts is either an edge of the section 4.2 table or
the PROCESSING self-transition that re-finalization performs. -/
theorem c3_amended_walk (a : CartesiaASR) (m : ConversationManager)
    (ts : List String) (h : m.state ≠ INTERRUPTING) :
    List.Chain' (fun x y => extTransition x y = true) (stateTrace a m ts) := by
  induction ts generalizing a m with
  | nil => simp [stateTrace, asrRun]
  | cons t ts ih =>
    by_cases hr : m.state = RESPONDING
    · have hh := handleFinal_responding a m t hr
      have htail := ih { current_session_id := m.current_session_id + 1 }
        { state := PROCESSING
          interrupt_event := false
          cleanup_llm := false
          cleanup_tts := false
          cleanup_audio_player := false
          current_session_id := m.current_session_id + 1 } (by simp)
      simp only [stateTrace, asrRun, hh, List.cons_append, List.nil_append, hr]
      simp only [stateTrace] at htail
      exact List.Chain'.cons (by decide)
        (List.Chain'.cons (by decide) (List.Chain'.cons (by decide) htail))
    · have hh := handleFinal_not_responding a m t hr
      have htail := ih { current_session_id := m.current_session_id }
        (m.set_state PROCESSING) (by simp [ConversationManager.set_state])
      simp only [stateTrace, asrRun, hh, List.cons_append, List.nil_append]
      simp only [stateTrace, ConversationManager.set_state] at htail
      refine List.Chain'.cons ?_ htail
      cases hs : m.state <;> simp_all [extTransition, specTransition]

/-- C3 (amended) witness at a concrete trace. -/
theorem c3_amended_walk_witness :
    List.Chain' (fun x y => extTransition x y = true)
      (stateTrace ({ current_session_id := 0 } : CartesiaASR)
        ConversationManager.init ["hello"]) :=
  c3_amended_walk { current_session_id := 0 } ConversationManager.init
    ["hello"] (by decide)

/-- C4: across every manager API call, the session id never
decreases; it increases by exactly 1 when `trigger_interrupt` runs in
state RESPONDING (a barge-in), and is unchanged by every other call
(`set_state`, `signal_cleanup_complete`, or `trigger_interrupt`
outside RESPONDING). -/
theorem c4_session_id_monotonic (m : ConversationManager) (op : MgrOp) :
    m.current_session_id ≤ (mgrStep m op).current_session_id ∧
    (op = MgrOp.trigger_interrupt_op ∧ m.state = RESPONDING →
      (mgrStep m op).current_session_id = m.current_session_id + 1) ∧
    (¬ (op = MgrOp.trigger_interrupt_op ∧ m.state = RESPONDING) →
      (mgrStep m op).current_session_id = m.current_session_id) := by
  cases op with
  | set_state_op s => simp [mgrStep, ConversationManager.set_state]
  | trigger_interrupt_op =>
      by_cases hr : m.state = RESPONDING <;>
        simp [mgrStep, ConversationManager.trigger_interrupt, hr]
  | signal_cleanup_op c =>
      cases c <;> simp [mgrStep, ConversationManager.signal_cleanup_complete]

/-- C4 witness: a barge-in from session 0 moves the session id to
exactly 1. -/
theorem c4_session_id_monotonic_witness :
    (mgrStep { ConversationManager.init with state := RESPONDING }
      MgrOp.trigger_interrupt_op).current_session_id =
      ({ ConversationManager.init with state := RESPONDING } :
        ConversationManager).current_session_id + 1 :=
  (c4_session_id_monotonic { ConversationManager.init with state := RESPONDING }
    MgrOp.trigger_interrupt_op).2.1 ⟨rfl, rfl⟩

/-- C5: the code forwards stale transcripts.  With the coordinator
RESPONDING at session 0, a final transcript (produced under the
captured session id 0) triggers the barge-in, which moves the
coordinator to session 1; asr.py line 113 then overwrites the
captured id with the new value, so the comparison at line 134
succeeds, and line 136 yields the text unconditionally: the very
utterance whose unit of work began under session 0 is pushed into the
text channel while the coordinator is at session 1, instead of being
discarded. -/
theorem c5_stale_transcript_forwarded :
    (handleFinalTranscript { current_session_id := 0 }
      { ConversationManager.init with state := RESPONDING } "hi").2.2.2
        = ["hi"] ∧
    (handleFinalTranscript { current_session_id := 0 }
      { ConversationManager.init with state := RESPONDING } "hi").2.1.current_session_id
        = 1 ∧
    ({ current_session_id := 0 } : CartesiaASR).current_session_id ≠ 1 := by
  refine ⟨?_, ?_, ?_⟩ <;> decide

/-- C10: `trigger_interrupt` called in any state other than
RESPONDING returns immediately with no effect: the state, the session
id, the interrupt event and every cleanup flag keep their prior
values. -/
theorem c10_trigger_interrupt_noop (m : ConversationManager)
    (h : m.state ≠ RESPONDING) :
    m.trigger_interrupt = m := by
  simp [ConversationManager.trigger_interrupt, h]

/-- C10 witness at the initial (LISTENING) manager state. -/
theorem c10_trigger_interrupt_noop_witness :
    ConversationManager.init.trigger_interrupt = ConversationManager.init :=
  c10_trigger_interrupt_noop ConversationManager.init (by decide)
/-- C1: the orchestrator in main.py never sends a terminal marker.
For every finite audio source, `audio_producer` enqueues only the
source chunks — zero "END" markers — into the audio queue (its
docstring nonetheless says it sends an END signal), while the
integration driver test_asr_llm_tts.py enqueues exactly one; and the
receive loop of `play_audio` breaks on no item at all, so it cannot
observe a terminal marker even if one arrived. -/
theorem c1_main_sends_no_terminal_marker :
    (∀ sourceChunks : List Nat,
      countEndMarkers (audioProducerPuts sourceChunks) = 0) ∧
    countEndMarkers (feedAudioPuts [7]) = 1 ∧
    (∀ item : PipeItem, playAudioBreaksOn item = false) := by
  refine ⟨?_, by decide, fun item => rfl⟩
  intro sourceChunks
  induction sourceChunks with
  | nil => rfl
  | cons c cs ih =>
      simpa [audioProducerPuts, countEndMarkers, List.count_cons] using ih

/-- C2: counterexample.  On a stage channel holding exactly the
terminal marker "END", the first `get()` dequeues the marker, and the
next `get()` on the now-empty channel suspends (`none`) instead of
returning the marker again: end-of-stream is not idempotent. -/
theorem c2_counterexample :
    AQueue.get { maxsize := 10, items := ["END"] }
      = some ("END", { maxsize := 10, items := [] }) ∧
    AQueue.get ({ maxsize := 10, items := [] } : AQueue String) = none := by
  exact ⟨rfl, rfl⟩

/-- C2 (amended): `get()` removes the terminal marker like any other
item; once it has been consumed the channel is empty and any further
`get()` suspends, so completion is observable exactly once per
enqueued marker — and the LLM consumer indeed dequeues "END" and
exits without re-enqueueing it. -/
theorem c2_amended_end_of_stream_once (ms : Nat) (x : String) :
    AQueue.get { maxsize := ms, items := [x] }
      = some (x, { maxsize := ms, items := [] }) ∧
    AQueue.get ({ maxsize := ms, items := [] } : AQueue String) = none ∧
    llmFirstStep { maxsize := ms, items := ["END"] }
      = some (none, { maxsize := ms, items := [] }) := by
  refine ⟨rfl, rfl, ?_⟩
  simp [llmFirstStep, AQueue.get]

/-- C9: counterexample.  The four inter-stage queues that main.py
actually wires into the pipeline are created as `asyncio.Queue()`
with the default `maxsize = 0`, i.e. unbounded — not with a fixed
capacity between 10 and 20. -/
theorem c9_counterexample :
    ¬ ∀ c ∈ mainStageQueueMaxsizes, 10 ≤ c ∧ c ≤ 20 := by
  decide

/-- C9 (amended): the `BufferManager` stage queues have the fixed
capacities 10, 10, 20, 20, all between 10 and 20; `put` on a bounded
queue suspends exactly when the queue already holds `maxsize` items,
and a successful `put` never grows a bounded queue beyond its
capacity.  The queues main.py wires, however, are unbounded
(`maxsize = 0`), and an unbounded `put` never suspends. -/
theorem c9_amended_bounded_channels :
    ([BufferManager.init.audio_buffer.maxsize,
      BufferManager.init.text_buffer.maxsize,
      BufferManager.init.llm_response_buffer.maxsize,
      BufferManager.init.playback_buffer.maxsize] = [10, 10, 20, 20] ∧
     ∀ c ∈ [BufferManager.init.audio_buffer.maxsize,
        BufferManager.init.text_buffer.maxsize,
        BufferManager.init.llm_response_buffer.maxsize,
        BufferManager.init.playback_buffer.maxsize], 10 ≤ c ∧ c ≤ 20) ∧
    (∀ (α : Type) (q : AQueue α) (x : α),
      0 < q.maxsize → q.maxsize ≤ q.items.length → q.put x = none) ∧
    (∀ (α : Type) (q : AQueue α) (x : α) (q' : AQueue α),
      q.put x = some q' → 0 < q.maxsize → q'.items.length ≤ q.maxsize) ∧
    (∀ (α : Type) (q : AQueue α) (x : α), q.maxsize = 0 → q.put x ≠ none) := by
  refine ⟨⟨by decide, by decide⟩, ?_, ?_, ?_⟩
  · intro α q x h1 h2
    simp [AQueue.put, AQueue.full, h1, h2]
  · intro α q x q' hput hpos
    simp only [AQueue.put, AQueue.full] at hput
    by_cases hfull : 0 < q.maxsize ∧ q.maxsize ≤ q.items.length
    · simp [hfull.1, hfull.2] at hput
    · have hlen : q.items.length < q.maxsize := by
        rcases Nat.lt_or_ge q.items.length q.maxsize with h | h
        · exact h
        · exact absurd ⟨hpos, h⟩ hfull
      have : ¬ (decide (0 < q.maxsize) && decide (q.maxsize ≤ q.items.length)) = true := by
        simp
        omega
      rw [if_neg this] at hput
      cases hput
      simp [List.length_append]
      omega
  · intro α q x h
    simp [AQueue.put, AQueue.full, h]

/-- C9 (amended) witness: the audio stage queue filled to its
capacity of 10 suspends the producer. -/
theorem c9_amended_bounded_channels_witness :
    AQueue.put { maxsize := 10, items := [0, 1, 2, 3, 4, 5, 6, 7, 8, 9] }
      (99 : Nat) = none :=
  c9_amended_bounded_channels.2.1 Nat
    { maxsize := 10, items := [0, 1, 2, 3, 4, 5, 6, 7, 8, 9] } 99
    (by decide) (by decide)
/-- C6: the prebuffer gate.  Before playback has started and while
the buffered total is below `min_buffer_samples`, the callback
returns pure silence and changes nothing (playback stays unstarted);
on any request with the total at or above the threshold (or with
playback already started) the started flag is set; and once started,
the callback always serves the buffered samples in FIFO order —
padding with silence past them — regardless of whether the total has
dropped back below the threshold, so there is no re-buffering
pause. -/
theorem c6_prebuffer_gate (p : SoundDeviceAudioPlayer) (frames : Nat) :
    (¬ p.started_playback →
      p.total_samples_buffered < p.min_buffer_samples →
      audio_callback p frames = (p, List.replicate frames 0)) ∧
    (p.min_buffer_samples ≤ p.total_samples_buffered ∨ p.started_playback →
      (audio_callback p frames).1.started_playback = true) ∧
    (p.started_playback = true →
      (audio_callback p frames).2 =
        p.audio_buffer.flatten.take frames ++
          List.replicate (frames - p.audio_buffer.flatten.length) 0) := by
  refine ⟨?_, ?_, ?_⟩
  · intro hns hlt
    have hcond : ¬ p.started_playback ∧
        p.total_samples_buffered < p.min_buffer_samples := ⟨by simpa using hns, hlt⟩
    simp [audio_callback, hcond]
  · intro hor
    have hcond : ¬ (¬ p.started_playback ∧
        p.total_samples_buffered < p.min_buffer_samples) := by
      rcases hor with h | h
      · exact fun hc => absurd h (Nat.not_le.mpr hc.2)
      · exact fun hc => hc.1 (by simp [h])
    rw [audio_callback, if_neg hcond]
    by_cases hb : p.audio_buffer = [] <;> simp [hb]
  · intro hst
    have hcond : ¬ (¬ p.started_playback ∧
        p.total_samples_buffered < p.min_buffer_samples) := by
      intro hc
      exact hc.1 (by simp [hst])
    rw [audio_callback, if_neg hcond]
    by_cases hb : p.audio_buffer = []
    · simp [hb]
    · obtain ⟨hout, hused, hrem⟩ := serveLoop_spec p.audio_buffer frames
      simp only [hb, if_pos, ne_eq, not_false_eq_true, if_true]
      simp only [hout, hused]
      congr 1
      congr 1
      omega

/-- C6 witness: with the default 4800-sample minimum and only 2000
samples pushed, a pre-start callback returns silence and leaves the
player (including the started flag) untouched. -/
theorem c6_prebuffer_gate_witness :
    audio_callback prebufferExample 2048
      = (prebufferExample, List.replicate 2048 0) :=
  (c6_prebuffer_gate prebufferExample 2048).1 (by decide) (by decide)

/-- C7: post-start underrun.  If playback has started, the running
total is the sum of the buffered chunk lengths, and a request for
`frames` samples exceeds the buffered total `m > 0`, then the output
is exactly the `m` buffered samples in FIFO order followed by
`frames - m` samples of silence, the underrun counter increments by
exactly 1, and the buffer is left empty. -/
theorem c7_underrun_fill (p : SoundDeviceAudioPlayer) (frames : Nat)
    (hst : p.started_playback = true)
    (hinv : bufferInvariant p)
    (hpos : 0 < p.total_samples_buffered)
    (hlt : p.total_samples_buffered < frames) :
    (audio_callback p frames).2 =
      p.audio_buffer.flatten ++
        List.replicate (frames - p.total_samples_buffered) 0 ∧
    (audio_callback p frames).1.underrun_count = p.underrun_count + 1 ∧
    (audio_callback p frames).1.total_samples_buffered = 0 ∧
    (audio_callback p frames).1.audio_buffer.flatten = [] := by
  have hflat : p.audio_buffer.flatten.length = p.total_samples_buffered := by
    rw [List.length_flatten, hinv]
  have hb : p.audio_buffer ≠ [] := by
    intro h
    rw [h] at hflat
    simp at hflat
    omega
  have hcond : ¬ (¬ p.started_playback ∧
      p.total_samples_buffered < p.min_buffer_samples) := by
    intro hc
    exact hc.1 (by simp [hst])
  obtain ⟨hout, hused, hrem⟩ := serveLoop_spec p.audio_buffer frames
  have husedv : (serveLoop p.audio_buffer frames).2.1 =
      p.total_samples_buffered := by
    rw [hused, hflat]
    omega
  refine ⟨?_, ?_, ?_, ?_⟩
  · rw [audio_callback, if_neg hcond]
    simp only [hb, ne_eq, not_false_eq_true, if_true]
    rw [hout, husedv, List.take_of_length_le (by omega)]
  · rw [audio_callback, if_neg hcond]
    simp only [hb, ne_eq, not_false_eq_true, if_true]
    rw [husedv]
    rw [if_pos (by omega)]
  · rw [audio_callback, if_neg hcond]
    simp only [hb, ne_eq, not_false_eq_true, if_true]
    rw [husedv]
    simp
  · rw [audio_callback, if_neg hcond]
    simp only [hb, ne_eq, not_false_eq_true, if_true]
    rw [hrem, List.drop_eq_nil_of_le (by omega)]

/-- C7 witness: a 5-sample request against 3 buffered samples (in two
chunks) returns the 3 samples plus 2 of silence and bumps the
underrun counter from 0 to 1. -/
theorem c7_underrun_fill_witness :
    (audio_callback underrunExample 5).2 = [1, 2, 3] ++ List.replicate 2 0 ∧
    (audio_callback underrunExample 5).1.underrun_count = 0 + 1 ∧
    (audio_callback underrunExample 5).1.total_samples_buffered = 0 ∧
    (audio_callback underrunExample 5).1.audio_buffer.flatten = [] :=
  c7_underrun_fill underrunExample 5 (by decide)
    (by unfold bufferInvariant underrunExample; decide) (by decide) (by decide)

/-- C8: the claim fails on the code.  `flush_and_stop` clears the
chunk deque but leaves `total_samples_buffered` at its stale value 2
(not 0) and leaves `started_playback` set, so after the flush the
running total no longer equals the (zero) sum of the remaining chunk
sample counts — the invariant every other method maintains. -/
theorem c8_flush_keeps_total_and_started :
    (flush_and_stop flushExample).audio_buffer = [] ∧
    (flush_and_stop flushExample).total_samples_buffered = 2 ∧
    (flush_and_stop flushExample).started_playback = true ∧
    ¬ bufferInvariant (flush_and_stop flushExample) := by
  refine ⟨rfl, rfl, rfl, ?_⟩
  unfold bufferInvariant flush_and_stop flushExample
  decide

end VoiceAgent
